import Mathlib

/-!
Verification of the Christmas particle-scene repository.

The development shallowly embeds the repository's TypeScript sources:

* `src/math.ts` — point-cloud generators (`getRandomSpherePoint`,
  `getTreePoint`, `sampleRegions`, the shape generators, canvas sampling,
  `getVolumetricShapePoint`).
* `src/unnamed/part_004` (the `Foliage` component) — formation target
  dispatch and the per-frame morph interpolation loop.
* `src/GalaxyBackground.tsx` (the `GestureController` component) — the
  rule-based pose classifier and the FIST/OPEN hold handling.
* `src/VibeBackground.tsx` (the `Controls` component) — the chaos/formed
  toggle.

Machine floats are idealised as exact arithmetic: pure numeric code is
embedded polymorphically over a `LinearOrderedField` (instantiated at `ℚ`
for executable checks), while code using transcendental library functions
(`Math.cos`, `Math.sqrt`, `Math.pow`, ...) is embedded over `ℝ`.
`Math.random()` is modelled as reading successive values from an explicit
stream `ℕ → ℝ` of draws, each assumed to lie in `[0, 1)`.  External
collaborators (the 2D canvas, font measurement, `THREE.Color` parsing and
HSL arithmetic) enter as parameters.
-/

namespace Christmas

/-- Componentwise vector of three coordinates, the embedding of
`THREE.Vector3` (three.js stores `x`, `y`, `z`). -/
structure Vec3 (R : Type) where
  x : R
  y : R
  z : R
deriving DecidableEq

/-- RGB colour triple, the embedding of `THREE.Color` (components in
`[0,1]`, a hex literal `#rrggbb` mapping to `(r/255, g/255, b/255)`). -/
structure Color3 (R : Type) where
  r : R
  g : R
  b : R
deriving DecidableEq

instance {R : Type} [Add R] : Add (Vec3 R) where
  add v w := ⟨v.x + w.x, v.y + w.y, v.z + w.z⟩

/-- Embedding of `THREE.Vector3.multiplyScalar`. -/
def Vec3.multiplyScalar {R : Type} [Mul R] (v : Vec3 R) (c : R) : Vec3 R :=
  ⟨v.x * c, v.y * c, v.z * c⟩

/-- Embedding of `THREE.Vector3.lerp`: componentwise `v + (w - v) * t`. -/
def Vec3.lerp {R : Type} [Ring R] (v w : Vec3 R) (t : R) : Vec3 R :=
  ⟨v.x + (w.x - v.x) * t, v.y + (w.y - v.y) * t, v.z + (w.z - v.z) * t⟩

/-- Embedding of `THREE.Color.lerp`: componentwise `c + (d - c) * t`. -/
def Color3.lerp {R : Type} [Ring R] (c d : Color3 R) (t : R) : Color3 R :=
  ⟨c.r + (d.r - c.r) * t, c.g + (d.g - c.g) * t, c.b + (d.b - c.b) * t⟩

/-- Modelled from the spec: the application state enum `AppState` lives in
`types.ts`, which is not among the provided sources; the spec describes
"a two-state toggle (chaos/formed)", and the sources only ever mention
`AppState.CHAOS` and `AppState.FORMED`. -/
inductive AppState where
  | CHAOS
  | FORMED
deriving DecidableEq

/-- Modelled from the spec: the formation enum `FormationType` lives in
`types.ts`, which is not among the provided sources; the constructors are
exactly the members used by the sources (the `Controls` formation list in
`src/VibeBackground.tsx` and the `Foliage` switch in
`src/unnamed/part_004`). -/
inductive FormationType where
  | TREE
  | PINK_TREE
  | RED_TREE
  | GIFT
  | HAT
  | STOCKING
  | ELK
  | SANTA
  | TEXT
  | ANKERMAKER
  | ANKER
  | SOUNDCORE
  | EUFY
deriving DecidableEq

/-- The raw poses assigned by the `GestureController` classifier in
`src/GalaxyBackground.tsx` (string values in the source). -/
inductive Pose where
  | ROTATE
  | PEACE_ZOOM
  | LIKE_SNAP
  | FIST
  | OPEN
  | IDLE
deriving DecidableEq

/-- Embedding of the `Controls` UI toggle in `src/VibeBackground.tsx`:
`toggleState: () => setAppState(appState === AppState.CHAOS ?
AppState.FORMED : AppState.CHAOS)`. -/
def toggleState (appState : AppState) : AppState :=
  if appState = AppState.CHAOS then AppState.FORMED else AppState.CHAOS

/-- Threshold `EXT_TH = 1.3` from `GestureController.onResults`. -/
def EXT_TH : ℚ := 1.3

/-- Threshold `CURL_TH = 1.0` from `GestureController.onResults`. -/
def CURL_TH : ℚ := 1.0

/-- Threshold `THUMB_EXT_TH = 1.1` from `GestureController.onResults`. -/
def THUMB_EXT_TH : ℚ := 1.1

/-- Embedding of the raw-pose rule chain of `GestureController.onResults`
(`src/GalaxyBackground.tsx`).  Inputs are the five fingertip-to-wrist
extension ratios `tExt iExt mExt rExt pExt` (fingertip distance divided by
hand size) and the smoothed `y` coordinates of the thumb tip (`lm[4]`) and
thumb IP joint (`lm[3]`). -/
def classifyPose (tExt iExt mExt rExt pExt thumbTipY thumbIpY : ℚ) : Pose :=
  if iExt > EXT_TH ∧ mExt < CURL_TH ∧ rExt < CURL_TH ∧ pExt < CURL_TH then
    Pose.ROTATE
  else if iExt > EXT_TH ∧ mExt > EXT_TH ∧ rExt < CURL_TH ∧ pExt < CURL_TH then
    Pose.PEACE_ZOOM
  else if tExt > THUMB_EXT_TH ∧ iExt < CURL_TH ∧ mExt < CURL_TH ∧
      rExt < CURL_TH ∧ pExt < CURL_TH ∧ thumbTipY < thumbIpY then
    Pose.LIKE_SNAP
  else if iExt < CURL_TH ∧ mExt < CURL_TH ∧ rExt < CURL_TH ∧ pExt < CURL_TH then
    Pose.FIST
  else if iExt > EXT_TH ∧ mExt > EXT_TH ∧ rExt > EXT_TH ∧ pExt > EXT_TH then
    Pose.OPEN
  else
    Pose.IDLE

/-- The FIST guard of the rule chain: all four non-thumb extension ratios
below `CURL_TH = 1.0`. -/
def fistCond (iExt mExt rExt pExt : ℚ) : Bool :=
  decide (iExt < CURL_TH) && decide (mExt < CURL_TH) &&
    decide (rExt < CURL_TH) && decide (pExt < CURL_TH)

/-- The OPEN guard of the rule chain: all four non-thumb extension ratios
above `EXT_TH = 1.3`. -/
def openCond (iExt mExt rExt pExt : ℚ) : Bool :=
  decide (iExt > EXT_TH) && decide (mExt > EXT_TH) &&
    decide (rExt > EXT_TH) && decide (pExt > EXT_TH)

/-- The mutable hold-tracking state of `GestureController`: the
`currentPose` ref (`none` models the string value `'NONE'`) and the
`poseHoldStart` timestamp ref (milliseconds). -/
structure HoldState where
  currentPose : Option Pose
  poseHoldStart : ℤ
deriving DecidableEq

/-- Embedding of the FIST/OPEN hold block of `GestureController.onResults`
(`src/GalaxyBackground.tsx`, the "形成/散开" section).  Given the confirmed
pose, the current time `now` (`Date.now()`, milliseconds) and the tracked
state, it returns the updated tracked state together with the argument of
the `setAppState` call when one is made.  `setAppState` is invoked nowhere
else in the component, so this block is the component's only chaos/formed
state change. -/
def gestureHoldStep (confirmedPose : Pose) (now : ℤ) (st : HoldState) :
    HoldState × Option AppState :=
  if confirmedPose = Pose.FIST ∨ confirmedPose = Pose.OPEN then
    if st.currentPose = some confirmedPose then
      let dur := now - st.poseHoldStart
      if dur > 300 then
        (⟨st.currentPose, now + 800⟩,
          some (if confirmedPose = Pose.FIST then AppState.FORMED else AppState.CHAOS))
      else
        (st, none)
    else
      (⟨some confirmedPose, now⟩, none)
  else
    if confirmedPose ≠ Pose.IDLE then (⟨none, st.poseHoldStart⟩, none)
    else (st, none)

/-- A run of the hold block over successive frames, each a confirmed pose
with its `Date.now()` timestamp, from a starting tracked state (source
initial refs: `currentPose = 'NONE'`, `poseHoldStart = 0`): returns the
final tracked state and the per-frame `setAppState` emissions. -/
def gestureHoldRun (frames : List (Pose × ℤ)) (st : HoldState) :
    HoldState × List (Option AppState) :=
  match frames with
  | [] => (st, [])
  | (p, t) :: rest =>
    let step := gestureHoldStep p t st
    let tail := gestureHoldRun rest step.1
    (tail.1, step.2 :: tail.2)

/-- Embedding of `getVolumetricShapePoint` (`src/math.ts`).  The three
`Math.random()` draws are passed explicitly in source order: `rz` for the
`z` coordinate, then `rx` and `ry` for the `x`/`y` jitter.  The source
guard `if (!points || points.length === 0) return new THREE.Vector3();`
becomes the empty-list branch; otherwise the point at
`index % points.length` is read. -/
def getVolumetricShapePoint {R : Type} [LinearOrderedField R]
    (points : List (Vec3 R)) (index : ℕ) (rz rx ry : R) (thickness : R) :
    Vec3 R :=
  match points with
  | [] => ⟨0, 0, 0⟩
  | p :: ps =>
    let pt := (p :: ps).get ⟨index % (p :: ps).length,
      Nat.mod_lt _ (Nat.succ_pos ps.length)⟩
    ⟨pt.x + (rx - 0.5) * 0.1, pt.y + (ry - 0.5) * 0.1, (rz - 0.5) * thickness⟩

/-- Embedding of the sampling stride of the canvas loops
(`src/math.ts`): `const step = Math.max(1, Math.floor(4 / density))`. -/
def sampleStep {R : Type} [LinearOrderedField R] [FloorRing R]
    (density : R) : ℕ :=
  max 1 (Int.toNat ⌊(4 : R) / density⌋)

/-- The canvas facilities used by `getCanvasTextPoints` (`src/math.ts`),
which are external collaborators: the canvas width `maxWidth + 40` and
height `lines.length * lineHeight + 40` determined by font measurement,
and the RGBA byte array produced by rendering the text.  Each is a
function of the text and the font string. -/
structure CanvasExt (R : Type) where
  width : String → String → ℕ
  height : String → String → ℕ
  alphaData : String → String → ℕ → ℕ

/-- Embedding of the pixel-sampling loop of `getCanvasTextPoints`
(`src/math.ts`): for each sampled pixel `(x, y)` (both multiples of the
stride, inside the canvas) the alpha byte at `(y * width + x) * 4 + 3` is
tested against 128, and accepted pixels yield the world point
`((x - centerX) * 0.04, -(y - centerY) * 0.04, 0)` with
`centerX = width / 2`, `centerY = height / 2`. -/
def textPointsLoop {R : Type} [LinearOrderedField R]
    (w h step : ℕ) (alphaData : ℕ → ℕ) : List (Vec3 R) :=
  let centerX : R := (w : R) / 2
  let centerY : R := (h : R) / 2
  ((List.range h).filter (fun y => y % step == 0)).flatMap (fun y =>
    ((List.range w).filter (fun x => x % step == 0)).filterMap (fun x =>
      if 128 < alphaData ((y * w + x) * 4 + 3) then
        some ⟨((x : R) - centerX) * 0.04, -(((y : R) - centerY) * 0.04), 0⟩
      else none))

/-- Embedding of `getCanvasTextPoints` (`src/math.ts`), with the canvas
rendering supplied by `ext`.  The memoisation cache of the source is
transparent here since the function is pure. -/
def getCanvasTextPoints {R : Type} [LinearOrderedField R] [FloorRing R]
    (ext : CanvasExt R) (text font : String) (density : R) : List (Vec3 R) :=
  textPointsLoop (ext.width text font) (ext.height text font)
    (sampleStep density) (ext.alphaData text font)

/-- The firework flag of the `Foliage` frame loop
(`src/unnamed/part_004`): `const isFirework = !isFormed && formation ===
FormationType.GIFT`. -/
def foliageIsFirework (state : AppState) (formation : FormationType) : Bool :=
  decide (state ≠ AppState.FORMED) && decide (formation = FormationType.GIFT)

/-- The per-particle interpolation factor of the `Foliage` frame loop:
`speeds[i] * (delta * 60 * config.particles.speed) * (isFirework ? 3.0 :
1.0)`. -/
def foliageLerpSpeed {R : Type} [LinearOrderedField R]
    (speeds : ℕ → R) (delta particleSpeed : R) (isFirework : Bool)
    (i : ℕ) : R :=
  speeds i * (delta * 60 * particleSpeed) * (if isFirework then 3 else 1)

/-- The target coordinate selection of the `Foliage` frame loop:
`isFormed ? target : (isFirework ? firework : chaos)`, read at flat array
index `j`. -/
def foliageTargetArray {R : Type} (state : AppState)
    (formation : FormationType) (targetPos fireworkPos chaosPos : ℕ → R)
    (j : ℕ) : R :=
  if state = AppState.FORMED then targetPos j
  else if formation = FormationType.GIFT then fireworkPos j
  else chaosPos j

/-- Embedding of one frame of the `Foliage` particle update
(`src/unnamed/part_004`, the `useFrame` position loop): every flat array
index `j` below `count * 3` (coordinate `j % 3` of particle `j / 3`)
moves toward its selected target by the particle's interpolation factor;
other indices are untouched. -/
def foliageStep {R : Type} [LinearOrderedField R] (state : AppState)
    (formation : FormationType) (count : ℕ)
    (targetPos fireworkPos chaosPos speeds pos : ℕ → R)
    (delta particleSpeed : R) : ℕ → R :=
  fun j =>
    if j < count * 3 then
      pos j +
        (foliageTargetArray state formation targetPos fireworkPos chaosPos j
            - pos j) *
          foliageLerpSpeed speeds delta particleSpeed
            (foliageIsFirework state formation) (j / 3)
    else pos j

/-- C3: the application state has exactly the two values `CHAOS` and
`FORMED`; the UI toggle maps `CHAOS` to `FORMED` and `FORMED` to `CHAOS`,
and composing it with itself is the identity. -/
theorem toggleState_involutive :
    toggleState AppState.CHAOS = AppState.FORMED ∧
    toggleState AppState.FORMED = AppState.CHAOS ∧
    ∀ s : AppState, toggleState (toggleState s) = s := by
  refine ⟨rfl, rfl, ?_⟩
  intro s
  cases s <;> rfl

/-- C4: the raw pose is a function of exactly the five extension ratios and
the thumb-tip versus thumb-IP `y` comparison (the inputs of
`classifyPose`); its value is always one of the six poses, and the FIST
guard (all four non-thumb ratios below `1.0`) and the OPEN guard (all four
ratios above `1.3`) are never satisfied together. -/
theorem classifyPose_rules (tExt iExt mExt rExt pExt thumbTipY thumbIpY : ℚ) :
    classifyPose tExt iExt mExt rExt pExt thumbTipY thumbIpY ∈
      [Pose.ROTATE, Pose.PEACE_ZOOM, Pose.LIKE_SNAP, Pose.FIST, Pose.OPEN,
        Pose.IDLE] ∧
    (fistCond iExt mExt rExt pExt && openCond iExt mExt rExt pExt) = false := by
  constructor
  · unfold classifyPose
    split_ifs <;> simp
  · by_cases hi : iExt < CURL_TH
    · have hno : ¬ (iExt > EXT_TH) := by
        unfold CURL_TH at hi
        unfold EXT_TH
        linarith
      simp [openCond, hno]
    · simp [fistCond, hi]

/-- C6 (amended to the refs-tracked hold): in every run of the hold block,
the state is set to `FORMED` exactly when the confirmed pose is `FIST`,
the tracked pose is `FIST`, and the tracked hold has lasted more than 300
milliseconds; it is set to `CHAOS` exactly when the same holds of `OPEN`;
any other confirmed pose produces no state change; a confirmed `IDLE`
frame leaves the tracking refs entirely unchanged (so IDLE gaps do not
interrupt a hold), while a confirmed `ROTATE`, `PEACE_ZOOM` or
`LIKE_SNAP` frame resets the tracked pose. -/
theorem gestureHoldStep_spec (pose : Pose) (now : ℤ) (st : HoldState) :
    ((gestureHoldStep pose now st).2 = some AppState.FORMED ↔
      pose = Pose.FIST ∧ st.currentPose = some Pose.FIST ∧
        now - st.poseHoldStart > 300) ∧
    ((gestureHoldStep pose now st).2 = some AppState.CHAOS ↔
      pose = Pose.OPEN ∧ st.currentPose = some Pose.OPEN ∧
        now - st.poseHoldStart > 300) ∧
    (pose ≠ Pose.FIST → pose ≠ Pose.OPEN →
      (gestureHoldStep pose now st).2 = none) ∧
    gestureHoldStep Pose.IDLE now st = (st, none) ∧
    (pose = Pose.ROTATE ∨ pose = Pose.PEACE_ZOOM ∨ pose = Pose.LIKE_SNAP →
      (gestureHoldStep pose now st).1 = ⟨none, st.poseHoldStart⟩) := by
  cases pose <;>
    simp only [gestureHoldStep] <;>
    split_ifs <;>
    simp_all

/-- Witness for C6 at concrete inputs: a tracked `FIST` hold started at
time `0` and observed at time `400` fires `FORMED`, a `ROTATE` at the
same moment fires nothing, and an `IDLE` frame leaves the tracking
unchanged. -/
theorem gestureHoldStep_spec_witness :
    (gestureHoldStep Pose.FIST 400 ⟨some Pose.FIST, 0⟩).2 =
      some AppState.FORMED ∧
    (gestureHoldStep Pose.ROTATE 400 ⟨some Pose.FIST, 0⟩).2 = none ∧
    gestureHoldStep Pose.IDLE 400 ⟨some Pose.FIST, 0⟩ =
      (⟨some Pose.FIST, 0⟩, none) := by
  refine ⟨?_, ?_, ?_⟩
  · exact (gestureHoldStep_spec Pose.FIST 400 ⟨some Pose.FIST, 0⟩).1.mpr
      ⟨rfl, rfl, by decide⟩
  · exact (gestureHoldStep_spec Pose.ROTATE 400 ⟨some Pose.FIST, 0⟩).2.2.1
      (by decide) (by decide)
  · exact (gestureHoldStep_spec Pose.IDLE 400 ⟨some Pose.FIST, 0⟩).2.2.2.1

/-- Counterexample to C6 as stated: starting from the initial refs
(`currentPose = 'NONE'`, `poseHoldStart = 0`), the frame sequence FIST at
time 0, confirmed IDLE at times 50 and 340, FIST at time 400 fires
`FORMED` on its last frame — yet at time 340, inside the 300-millisecond
window preceding the fire (400 − 340 < 300), the confirmed pose was
`IDLE`, so the confirmed pose had not been `FIST` continuously for more
than 300 milliseconds. -/
theorem gestureHold_continuity_cex :
    (gestureHoldRun [(Pose.FIST, 0), (Pose.IDLE, 50), (Pose.IDLE, 340),
        (Pose.FIST, 400)] ⟨none, 0⟩).2 =
      [none, none, none, some AppState.FORMED] ∧
    (400 : ℤ) - 340 < 300 := by
  decide

/-- State-threaded model of code that calls `Math.random()`: a computation
reads draws from a stream `ℕ → ℝ` starting at a cursor and returns its
result together with the advanced cursor. -/
def Rand (α : Type) : Type := (ℕ → ℝ) → ℕ → α × ℕ

instance : Monad Rand where
  pure a := fun _ n => (a, n)
  bind m f := fun s n => f (m s n).1 s (m s n).2

/-- One `Math.random()` call: read the next draw and advance the cursor.
Draws are assumed to lie in `[0, 1)` (the `Math.random()` contract). -/
def mathRandom : Rand ℝ := fun s n => (s n, n + 1)

/-- Embedding of `Math.cbrt`: the real cube root, sign-preserving like the
JavaScript function. -/
noncomputable def cbrt (x : ℝ) : ℝ :=
  if x < 0 then -((-x) ^ ((1 : ℝ) / 3)) else x ^ ((1 : ℝ) / 3)

/-!
The `PALETTE` colours of `src/math.ts`; each hex literal `#rrggbb` becomes
the triple `(r/255, g/255, b/255)`.
-/

noncomputable def PALETTE.emerald : Color3 ℝ := ⟨11/255, 244/255, 170/255⟩

noncomputable def PALETTE.gold : Color3 ℝ := ⟨251/255, 231/255, 116/255⟩

noncomputable def PALETTE.red : Color3 ℝ := ⟨229/255, 16/255, 16/255⟩

noncomputable def PALETTE.silver : Color3 ℝ := ⟨204/255, 204/255, 204/255⟩

noncomputable def PALETTE.goldLight : Color3 ℝ := ⟨1, 244/255, 176/255⟩

noncomputable def PALETTE.white : Color3 ℝ := ⟨1, 1, 1⟩

noncomputable def PALETTE.brown : Color3 ℝ := ⟨139/255, 69/255, 19/255⟩

noncomputable def PALETTE.darkBrown : Color3 ℝ := ⟨93/255, 64/255, 55/255⟩

noncomputable def PALETTE.skin : Color3 ℝ := ⟨1, 204/255, 170/255⟩

noncomputable def PALETTE.black : Color3 ℝ := ⟨26/255, 26/255, 26/255⟩

/-- Embedding of `getRandomSpherePoint` (`src/math.ts`): spherical angles
from the first two draws, radius `cbrt(draw) * radius` from the third. -/
noncomputable def getRandomSpherePoint (radius : ℝ) : Rand (Vec3 ℝ) := do
  let u ← mathRandom
  let v ← mathRandom
  let theta := 2 * Real.pi * u
  let phi := Real.arccos (2 * v - 1)
  let w0 ← mathRandom
  let r := cbrt w0 * radius
  let sinPhi := Real.sin phi
  pure ⟨r * sinPhi * Real.cos theta, r * sinPhi * Real.sin theta,
    r * Real.cos phi⟩

/-- Embedding of `getCylinderPoint` (`src/math.ts`). -/
noncomputable def getCylinderPoint (h r yBase : ℝ) : Rand (Vec3 ℝ) := do
  let t1 ← mathRandom
  let theta := t1 * Real.pi * 2
  let t2 ← mathRandom
  let rad := Real.sqrt t2 * r
  let t3 ← mathRandom
  let y := t3 * h
  pure ⟨rad * Real.cos theta, y + yBase, rad * Real.sin theta⟩

/-- Embedding of `getBoxPoint` (`src/math.ts`). -/
noncomputable def getBoxPoint (w h d : ℝ) (center : Vec3 ℝ) :
    Rand (Vec3 ℝ) := do
  let t1 ← mathRandom
  let t2 ← mathRandom
  let t3 ← mathRandom
  pure ⟨center.x + (t1 - 0.5) * w, center.y + (t2 - 0.5) * h,
    center.z + (t3 - 0.5) * d⟩

/-- Embedding of `getBezierTubePoint` (`src/math.ts`): a random point on
the cubic Bézier curve, displaced by a random sphere point whose radius
interpolates between `radiusStart` and `radiusEnd`. -/
noncomputable def getBezierTubePoint (p0 p1 p2 p3 : Vec3 ℝ)
    (radiusStart radiusEnd : ℝ) : Rand (Vec3 ℝ) := do
  let t ← mathRandom
  let oneMinusT := 1 - t
  let a := p0.multiplyScalar (oneMinusT * oneMinusT * oneMinusT)
  let b := p1.multiplyScalar (3 * oneMinusT * oneMinusT * t)
  let c := p2.multiplyScalar (3 * oneMinusT * t * t)
  let d := p3.multiplyScalar (t * t * t)
  let center := a + b + c + d
  let r := radiusStart * (1 - t) + radiusEnd * t
  let sp ← getRandomSpherePoint r
  pure (center + sp)

/-- Embedding of `getBranchPoint` (`src/math.ts`). -/
noncomputable def getBranchPoint (start e : Vec3 ℝ) (thickness : ℝ) :
    Rand (Vec3 ℝ) := do
  let t ← mathRandom
  let center := start.lerp e t
  let r := thickness * (1 - t * 0.5)
  let sp ← getRandomSpherePoint r
  pure (center + sp)

/-- A shape-sample: position and colour, the embedding of the `ShapeData`
interface of `src/math.ts`. -/
structure ShapeData where
  pos : Vec3 ℝ
  color : Color3 ℝ

/-- A weighted region, the embedding of the `Region` interface of
`src/math.ts` (fields in source order: weight, colour, generator). -/
structure Region where
  weight : ℝ
  color : Color3 ℝ
  gen : Rand (Vec3 ℝ)

/-- The `totalWeight` accumulator of `sampleRegions`:
`regions.reduce((sum, r) => sum + r.weight, 0)`. -/
def totalWeight (regions : List Region) : ℝ :=
  (regions.map Region.weight).sum

/-- Sum of the weights of the first `k` regions (the value of the loop
variable `random`'s total decrement before region `k` is examined). -/
def cumWeight (regions : List Region) (k : ℕ) : ℝ :=
  ((regions.take k).map Region.weight).sum

/-- The scan loop of `sampleRegions`: walk the region list, returning the
first region whose weight exceeds the remaining random mass, decrementing
the mass otherwise; `none` models falling off the loop. -/
noncomputable def selectRegion : List Region → ℝ → Option Region
  | [], _ => none
  | r :: rest, u => if u < r.weight then some r else selectRegion rest (u - r.weight)

/-- Embedding of `sampleRegions` (`src/math.ts`): draw
`Math.random() * totalWeight`, scan for the containing region and run its
generator; the fall-through returns the origin with `PALETTE.white`. -/
noncomputable def sampleRegions (regions : List Region) : Rand ShapeData := do
  let rnd ← mathRandom
  match selectRegion regions (rnd * totalWeight regions) with
  | some r => do
      let p ← r.gen
      pure ⟨p, r.color⟩
  | none => pure ⟨⟨0, 0, 0⟩, PALETTE.white⟩

/-- Embedding of `getTreePoint` (`src/math.ts`): height from a
density-biased draw, cone radius shrinking with height, and either a
spiral-band angle (when `spirals > 0`) or a uniform disc angle. -/
noncomputable def getTreePoint (height maxRadius spirals spiralTightness
    verticalOffset densityBias : ℝ) : Rand (Vec3 ℝ) := do
  let a ← mathRandom
  let yNorm := a ^ (1 / densityBias)
  let y := yNorm * height
  let rAtY := maxRadius * (1 - y / height)
  if spirals > 0 then do
    let spiralAngle := (1 - yNorm) * (spirals * Real.pi * 2)
    let maxSpread := Real.pi * 2 * (1 - spiralTightness)
    let b ← mathRandom
    let angle := spiralAngle + (b - 0.5) * maxSpread
    let c ← mathRandom
    let randomR := Real.sqrt c
    let rFactor := randomR + (1 - randomR) * (spiralTightness * 0.5)
    let r := rAtY * rFactor
    pure ⟨r * Real.cos angle, y + verticalOffset, r * Real.sin angle⟩
  else do
    let b ← mathRandom
    let angle := b * Real.pi * 2
    let c ← mathRandom
    let r := rAtY * Real.sqrt c
    pure ⟨r * Real.cos angle, y + verticalOffset, r * Real.sin angle⟩

/-- Embedding of `getHatPoint` (`src/math.ts`). -/
noncomputable def getHatPoint : Rand ShapeData :=
  let p0 : Vec3 ℝ := ⟨0, 0, 0⟩
  let p1 : Vec3 ℝ := ⟨0, 2.5, 0⟩
  let p2 : Vec3 ℝ := ⟨0.5, 4.0, -0.5⟩
  let p3 : Vec3 ℝ := ⟨1.5, 5.0, -1.5⟩
  sampleRegions [
    ⟨3.5, PALETTE.white, do
      let a ← mathRandom
      let angle := a * Real.pi * 2
      let b ← mathRandom
      let r := 2.2 + (b - 0.5) * 0.6
      let c ← mathRandom
      let y := (c - 0.5) * 0.7
      pure ⟨Real.cos angle * r, y, Real.sin angle * r⟩⟩,
    ⟨8, PALETTE.red, getBezierTubePoint p0 p1 p2 p3 2.0 0.2⟩,
    ⟨1.5, PALETTE.white, do
      let sp ← getRandomSpherePoint 0.8
      pure (sp + p3)⟩]

/-- Embedding of `getStockingPoint` (`src/math.ts`). -/
noncomputable def getStockingPoint : Rand ShapeData :=
  sampleRegions [
    ⟨4, PALETTE.white, getCylinderPoint 1.2 2.1 3.8⟩,
    ⟨7, PALETTE.red, getCylinderPoint 4.0 1.7 0⟩,
    ⟨3, PALETTE.red, do
      let sp ← getRandomSpherePoint 1.7
      pure (sp + (⟨0, 0, 0⟩ : Vec3 ℝ))⟩,
    ⟨6, PALETTE.red, getBezierTubePoint ⟨0, 0, 0⟩ ⟨0.5, -0.2, 0⟩
      ⟨2.5, -0.2, 0⟩ ⟨3.2, 0.2, 0⟩ 1.7 1.5⟩,
    ⟨0.5, PALETTE.gold, do
      let a ← mathRandom
      let angle := a * Real.pi * 2
      let b ← mathRandom
      let r := 0.3 + b * 0.1
      pure ⟨-1.6, 4.8 + Real.sin angle * r, Real.cos angle * r⟩⟩]

/-- Embedding of `postProcessStockingColor` (`src/math.ts`): a banded
pattern determined by `Math.floor(t * 1.1)` with `t` tilted on the foot
(`pt.y < 0.8`); the `baseColor` argument is unused as in the source. -/
noncomputable def postProcessStockingColor (pt : Vec3 ℝ)
    (baseColor : Color3 ℝ) : Color3 ℝ :=
  let t := if pt.y < 0.8 then pt.y - pt.x * 0.6 else pt.y
  let band := ⌊t * 1.1⌋
  let pattern := band.natAbs % 4
  if pattern = 0 then PALETTE.red
  else if pattern = 1 then PALETTE.white
  else if pattern = 2 then PALETTE.emerald
  else PALETTE.gold

/-- Embedding of `postProcessGiftColor` (`src/math.ts`): the identity on
the base colour. -/
def postProcessGiftColor (pt : Vec3 ℝ) (baseColor : Color3 ℝ) : Color3 ℝ :=
  baseColor

/-- Embedding of `getSantaPoint` (`src/math.ts`). -/
noncomputable def getSantaPoint : Rand ShapeData :=
  let brightRed : Color3 ℝ := ⟨1, 0, 0⟩
  let pureWhite : Color3 ℝ := ⟨1, 1, 1⟩
  let skin : Color3 ℝ := ⟨1, 203/255, 164/255⟩
  let black : Color3 ℝ := ⟨0, 0, 0⟩
  let gold : Color3 ℝ := ⟨1, 215/255, 0⟩
  let noseColor : Color3 ℝ := ⟨1, 127/255, 127/255⟩
  sampleRegions [
    ⟨6, skin, do
      let sp ← getRandomSpherePoint 2.8
      pure (sp + (⟨0, 4.5, 0.5⟩ : Vec3 ℝ))⟩,
    ⟨0.5, black, do
      let sp ← getRandomSpherePoint 0.18
      pure (sp + (⟨0.65, 5.0, 2.4⟩ : Vec3 ℝ))⟩,
    ⟨0.5, black, do
      let sp ← getRandomSpherePoint 0.18
      pure (sp + (⟨-0.65, 5.0, 2.4⟩ : Vec3 ℝ))⟩,
    ⟨0.3, noseColor, do
      let sp ← getRandomSpherePoint 0.35
      pure (sp + (⟨0, 4.5, 2.9⟩ : Vec3 ℝ))⟩,
    ⟨8, pureWhite, do
      let sp ← getRandomSpherePoint 2.2
      pure (sp + (⟨0, 2.5, 1.8⟩ : Vec3 ℝ))⟩,
    ⟨8, pureWhite, getBezierTubePoint ⟨-3.2, 4.0, 1.0⟩ ⟨-1.2, 1.0, 2.5⟩
      ⟨1.2, 1.0, 2.5⟩ ⟨3.2, 4.0, 1.0⟩ 1.8 1.8⟩,
    ⟨1.5, pureWhite, getBezierTubePoint ⟨-1.4, 4.0, 3.1⟩ ⟨-0.4, 4.1, 3.4⟩
      ⟨0.4, 4.1, 3.4⟩ ⟨1.4, 4.0, 3.1⟩ 0.5 0.5⟩,
    ⟨5, pureWhite, getCylinderPoint 1.2 4.0 6.0⟩,
    ⟨8.05, brightRed, getBezierTubePoint ⟨0, 6.5, 0⟩ ⟨0, 9.5, 0⟩
      ⟨2.5, 11.0, -1.0⟩ ⟨4.5, 8.5, -2.5⟩ 3.2 0.6⟩,
    ⟨1.5, pureWhite, do
      let sp ← getRandomSpherePoint 0.95
      pure (sp + (⟨4.5, 8.5, -2.5⟩ : Vec3 ℝ))⟩,
    ⟨11.5, brightRed, do
      let p ← getRandomSpherePoint 1.0
      pure ⟨p.x * 4.2, p.y * 3.5 + 0.5, p.z * 4.0⟩⟩,
    ⟨4, black, do
      let a ← mathRandom
      let angle := a * Real.pi * 2
      let r : ℝ := 4.3
      let b ← mathRandom
      let y := (b - 0.5) * 1.5
      pure ⟨Real.cos angle * r, y, Real.sin angle * r⟩⟩,
    ⟨1, gold, getBoxPoint 1.8 1.8 0.5 ⟨0, 0, 4.3⟩⟩,
    ⟨3, pureWhite, getCylinderPoint 0.8 3.8 (-2.5)⟩,
    ⟨0.5, gold, do
      let sp ← getRandomSpherePoint 0.3
      pure (sp + (⟨0, 1.5, 3.8⟩ : Vec3 ℝ))⟩,
    ⟨0.5, gold, do
      let sp ← getRandomSpherePoint 0.3
      pure (sp + (⟨0, 3.0, 3.2⟩ : Vec3 ℝ))⟩]

/-- Embedding of `getGiftPoint` (`src/math.ts`). -/
noncomputable def getGiftPoint : Rand ShapeData :=
  let center : Vec3 ℝ := ⟨0, 2.5, 0⟩
  let size : ℝ := 6.0
  let half := size / 2
  let edgeThick : ℝ := 0.15
  let cBody := PALETTE.emerald
  let cGold := PALETTE.gold
  sampleRegions [
    ⟨30, cBody, getBoxPoint (size - 0.2) (size - 0.2) (size - 0.2) center⟩,
    ⟨2, cGold, getBoxPoint edgeThick size edgeThick
      (center + (⟨half, 0, half⟩ : Vec3 ℝ))⟩,
    ⟨2, cGold, getBoxPoint edgeThick size edgeThick
      (center + (⟨-half, 0, half⟩ : Vec3 ℝ))⟩,
    ⟨2, cGold, getBoxPoint edgeThick size edgeThick
      (center + (⟨half, 0, -half⟩ : Vec3 ℝ))⟩,
    ⟨2, cGold, getBoxPoint edgeThick size edgeThick
      (center + (⟨-half, 0, -half⟩ : Vec3 ℝ))⟩,
    ⟨2, cGold, getBoxPoint size edgeThick edgeThick
      (center + (⟨0, half, half⟩ : Vec3 ℝ))⟩,
    ⟨2, cGold, getBoxPoint size edgeThick edgeThick
      (center + (⟨0, half, -half⟩ : Vec3 ℝ))⟩,
    ⟨2, cGold, getBoxPoint edgeThick edgeThick size
      (center + (⟨half, half, 0⟩ : Vec3 ℝ))⟩,
    ⟨2, cGold, getBoxPoint edgeThick edgeThick size
      (center + (⟨-half, half, 0⟩ : Vec3 ℝ))⟩,
    ⟨2, cGold, getBoxPoint size edgeThick edgeThick
      (center + (⟨0, -half, half⟩ : Vec3 ℝ))⟩,
    ⟨2, cGold, getBoxPoint size edgeThick edgeThick
      (center + (⟨0, -half, -half⟩ : Vec3 ℝ))⟩,
    ⟨2, cGold, getBoxPoint edgeThick edgeThick size
      (center + (⟨half, -half, 0⟩ : Vec3 ℝ))⟩,
    ⟨2, cGold, getBoxPoint edgeThick edgeThick size
      (center + (⟨-half, -half, 0⟩ : Vec3 ℝ))⟩,
    ⟨5, cGold, getBoxPoint 1.2 (size + 0.1) (size + 0.1) center⟩,
    ⟨5, cGold, getBoxPoint (size + 0.1) (size + 0.1) 1.2 center⟩,
    ⟨4, cGold, getBezierTubePoint ((⟨0, half, 0⟩ : Vec3 ℝ) + center)
      ((⟨2.0, half + 2.0, 0⟩ : Vec3 ℝ) + center)
      ((⟨3.0, half + 0.5, 0⟩ : Vec3 ℝ) + center)
      ((⟨0, half, 0⟩ : Vec3 ℝ) + center) 0.5 0.1⟩,
    ⟨4, cGold, getBezierTubePoint ((⟨0, half, 0⟩ : Vec3 ℝ) + center)
      ((⟨-2.0, half + 2.0, 0⟩ : Vec3 ℝ) + center)
      ((⟨-3.0, half + 0.5, 0⟩ : Vec3 ℝ) + center)
      ((⟨0, half, 0⟩ : Vec3 ℝ) + center) 0.5 0.1⟩]

/-- Embedding of `getElkPoint` (`src/math.ts`). -/
noncomputable def getElkPoint : Rand ShapeData :=
  let headCenter : Vec3 ℝ := ⟨3.0, 7.5, 0⟩
  sampleRegions [
    ⟨8, PALETTE.brown, do
      let p ← getRandomSpherePoint 1.0
      pure ⟨p.x * 2.8, p.y * 1.6 + 4.5, p.z * 1.5⟩⟩,
    ⟨5, PALETTE.brown, getBezierTubePoint ⟨1.5, 5.0, 0⟩ ⟨2.2, 6.0, 0⟩
      ⟨2.6, 6.8, 0⟩ ⟨3.0, 7.3, 0⟩ 1.6 1.0⟩,
    ⟨3, PALETTE.brown, do
      let sp ← getRandomSpherePoint 1.1
      pure (sp + headCenter)⟩,
    ⟨1, PALETTE.darkBrown, getBoxPoint 1.0 0.7 0.7
      (headCenter + (⟨0.8, -0.2, 0⟩ : Vec3 ℝ))⟩,
    ⟨1.5, PALETTE.brown, do
      let c ← getCylinderPoint 3.5 0.4 0
      pure (c + (⟨1.8, 0, 0.8⟩ : Vec3 ℝ))⟩,
    ⟨1.5, PALETTE.brown, do
      let c ← getCylinderPoint 3.5 0.4 0
      pure (c + (⟨1.8, 0, -0.8⟩ : Vec3 ℝ))⟩,
    ⟨1.5, PALETTE.brown, do
      let c ← getCylinderPoint 3.5 0.4 0
      pure (c + (⟨-1.8, 0, 0.8⟩ : Vec3 ℝ))⟩,
    ⟨1.5, PALETTE.brown, do
      let c ← getCylinderPoint 3.5 0.4 0
      pure (c + (⟨-1.8, 0, -0.8⟩ : Vec3 ℝ))⟩,
    ⟨3, PALETTE.goldLight, do
      let zs ← mathRandom
      let zSide : ℝ := if zs > 0.5 then 1 else -1
      let origin := headCenter + (⟨0, 0.8, 0.4 * zSide⟩ : Vec3 ℝ)
      let r ← mathRandom
      if r < 0.5 then
        getBranchPoint origin (origin + (⟨-1.5, 2.5, 0.8 * zSide⟩ : Vec3 ℝ))
          0.15
      else
        let beam := origin + (⟨-0.5, 0.8, 0.3 * zSide⟩ : Vec3 ℝ)
        getBranchPoint beam (beam + (⟨0.5, 1.0, 0⟩ : Vec3 ℝ)) 0.1⟩,
    ⟨0.5, PALETTE.white, do
      let sp ← getRandomSpherePoint 0.5
      pure (sp + (⟨-2.9, 5.2, 0⟩ : Vec3 ℝ))⟩]

/-- The `THREE.Color` facilities used by the text generators, which are
external collaborators: parsing a CSS colour string and
`THREE.Color.offsetHSL`. -/
structure ColorExt where
  parseColor : String → Color3 ℝ
  offsetHSL : Color3 ℝ → ℝ → ℝ → ℝ → Color3 ℝ

/-- The three `Math.random()` calls of `getVolumetricShapePoint`, threaded
from the draw stream in source order (`z` jitter first). -/
noncomputable def getVolumetricShapePointM (points : List (Vec3 ℝ))
    (index : ℕ) (thickness : ℝ) : Rand (Vec3 ℝ) := do
  let rz ← mathRandom
  let rx ← mathRandom
  let ry ← mathRandom
  pure (getVolumetricShapePoint points index rz rx ry thickness)

/-- Embedding of `getVolumetricTextPoint` (`src/math.ts`): canvas text
points (density 2.0) fed to `getVolumetricShapePoint`. -/
noncomputable def getVolumetricTextPoint (cext : CanvasExt ℝ)
    (text font : String) (index : ℕ) (thickness : ℝ) : Rand (Vec3 ℝ) :=
  getVolumetricShapePointM (getCanvasTextPoints cext text font 2.0) index
    thickness

/-- Embedding of `getGradientTextPoint` (`src/math.ts`): a volumetric text
point coloured by the clamped horizontal gradient between two colours. -/
noncomputable def getGradientTextPoint (cext : CanvasExt ℝ)
    (text font : String) (index : ℕ) (thickness : ℝ)
    (gradStart gradEnd : Color3 ℝ) (widthApprox : ℝ) : Rand ShapeData := do
  let pos ← getVolumetricTextPoint cext text font index thickness
  let halfW := widthApprox / 2
  let t := max 0 (min 1 ((pos.x + halfW) / widthApprox))
  pure ⟨pos, gradStart.lerp gradEnd t⟩

/-- Embedding of `getTextPoint` (`src/math.ts`): the "MERRY CHRISTMAS"
shape, coloured uniformly by the custom colour. -/
noncomputable def getTextPoint (cext : CanvasExt ℝ) (xext : ColorExt)
    (index total : ℕ) (colorStr : String) : Rand ShapeData := do
  let customColor := xext.parseColor colorStr
  let d ← getGradientTextPoint cext ("MERRY\nCHRISTMAS")
    ("700 {size} \x27Cinzel\x27, serif") index 1.0 customColor customColor 20
  pure ⟨d.pos, customColor⟩

/-- Embedding of `getAnkermakerPoint` (`src/math.ts`). -/
noncomputable def getAnkermakerPoint (cext : CanvasExt ℝ) (xext : ColorExt)
    (index total : ℕ) (colorStr : String) : Rand ShapeData :=
  let customColor := xext.parseColor colorStr
  let accent := xext.offsetHSL customColor 0 0 (-0.2)
  getGradientTextPoint cext ("Ankermaker")
    ("900 {size} \x27Arial Black\x27, sans-serif") index 1.5 customColor
    accent 18

/-- Embedding of `getAnkerPoint` (`src/math.ts`). -/
noncomputable def getAnkerPoint (cext : CanvasExt ℝ) (xext : ColorExt)
    (index total : ℕ) (colorStr : String) : Rand ShapeData :=
  let customColor := xext.parseColor colorStr
  let accent := xext.offsetHSL customColor 0 0 (-0.2)
  getGradientTextPoint cext ("ANKER")
    ("900 {size} \x27Arial Black\x27, \x27Inter\x27, sans-serif") index 1.5
    customColor accent 15

/-- Embedding of `getSoundcorePoint` (`src/math.ts`). -/
noncomputable def getSoundcorePoint (cext : CanvasExt ℝ) (xext : ColorExt)
    (index total : ℕ) (colorStr : String) : Rand ShapeData :=
  let customColor := xext.parseColor colorStr
  let accent := xext.offsetHSL customColor 0 0 (-0.2)
  getGradientTextPoint cext ("soundcore")
    ("700 {size} \x27Arial\x27, sans-serif") index 1.5 customColor accent 22

/-- Embedding of `getEufyPoint` (`src/math.ts`). -/
noncomputable def getEufyPoint (cext : CanvasExt ℝ) (xext : ColorExt)
    (index total : ℕ) (colorStr : String) : Rand ShapeData :=
  let customColor := xext.parseColor colorStr
  let accent := xext.offsetHSL customColor 0 0 (-0.2)
  getGradientTextPoint cext ("eufy")
    ("700 {size} \x27Arial\x27, sans-serif") index 1.5 customColor accent 10

/-- The tree parameters of `config.tree` consumed by the `Foliage` target
switch (`xOffset`/`yOffset` are not read there). -/
structure TreeConfig where
  height : ℝ
  radius : ℝ
  spirals : ℝ
  spiralTightness : ℝ
  densityBias : ℝ

/-- The colour strings of `config.colors` consumed by the `Foliage` target
switch. -/
structure ColorsConfig where
  emerald : String
  gold : String
  text : String
  anker : String
  ankermaker : String
  soundcore : String
  eufy : String

/-- The fallback switch of `getDynamicTextPoint` (`src/unnamed/part_004`):
route each text formation to its generator, defaulting to
`getTextPoint`. -/
noncomputable def getDynamicTextFallback (cext : CanvasExt ℝ)
    (xext : ColorExt) (ty : FormationType) (index total : ℕ)
    (colorValue : String) : Rand ShapeData :=
  match ty with
  | FormationType.ANKERMAKER =>
    getAnkermakerPoint cext xext index total colorValue
  | FormationType.ANKER => getAnkerPoint cext xext index total colorValue
  | FormationType.SOUNDCORE =>
    getSoundcorePoint cext xext index total colorValue
  | FormationType.EUFY => getEufyPoint cext xext index total colorValue
  | _ => getTextPoint cext xext index total colorValue

/-- Embedding of `getDynamicTextPoint` (`src/unnamed/part_004`): pick the
formation's configured colour string, use cached custom-logo points
through `getVolumetricShapePoint` when present and nonempty, and fall
back to the text generators otherwise. -/
noncomputable def getDynamicTextPoint (cext : CanvasExt ℝ) (xext : ColorExt)
    (colors : ColorsConfig) (cache : FormationType → Option (List (Vec3 ℝ)))
    (ty : FormationType) (index total : ℕ) : Rand ShapeData :=
  let colorValue :=
    if ty = FormationType.ANKER then colors.anker
    else if ty = FormationType.ANKERMAKER then colors.ankermaker
    else if ty = FormationType.SOUNDCORE then colors.soundcore
    else if ty = FormationType.EUFY then colors.eufy
    else colors.text
  let customColor := xext.parseColor colorValue
  match cache ty with
  | some customPoints =>
    if customPoints.length > 0 then do
      let pos ← getVolumetricShapePointM customPoints index 1.5
      pure ⟨pos, customColor⟩
    else getDynamicTextFallback cext xext ty index total colorValue
  | none => getDynamicTextFallback cext xext ty index total colorValue

/-- Colour local `cPink = '#FFB7C5'` of the `Foliage` target effect. -/
noncomputable def cPink : Color3 ℝ := ⟨1, 183/255, 197/255⟩

/-- Colour local `cMagenta = '#FF1493'` of the `Foliage` target effect. -/
noncomputable def cMagenta : Color3 ℝ := ⟨1, 20/255, 147/255⟩

/-- Colour local `cCrimson = '#DC143C'` of the `Foliage` target effect. -/
noncomputable def cCrimson : Color3 ℝ := ⟨220/255, 20/255, 60/255⟩

/-- Embedding of the per-particle body of the `Foliage` target `useEffect`
switch (`src/unnamed/part_004`): for the selected formation, produce the
particle's target position and colour from the corresponding generator,
with the source's scalings, post-processing and colour randomisation. -/
noncomputable def foliageTargetPoint (cext : CanvasExt ℝ) (xext : ColorExt)
    (formation : FormationType) (tree : TreeConfig) (colors : ColorsConfig)
    (cache : FormationType → Option (List (Vec3 ℝ))) (i count : ℕ) :
    Rand ShapeData :=
  match formation with
  | FormationType.HAT => do
    let d ← getHatPoint
    pure ⟨d.pos, d.color⟩
  | FormationType.STOCKING => do
    let d ← getStockingPoint
    let pt := d.pos.multiplyScalar 1.1
    pure ⟨pt, postProcessStockingColor pt d.color⟩
  | FormationType.SANTA => do
    let d ← getSantaPoint
    pure ⟨d.pos.multiplyScalar 1.1, d.color⟩
  | FormationType.PINK_TREE => do
    let pt ← getTreePoint tree.height tree.radius tree.spirals
      tree.spiralTightness (-2.0) tree.densityBias
    let r ← mathRandom
    let color :=
      if r > 0.9 then (⟨1, 1, 1⟩ : Color3 ℝ)
      else if r > 0.6 then cMagenta
      else if r < 0.2 then (⟨1, 240/255, 245/255⟩ : Color3 ℝ)
      else cPink
    pure ⟨pt, color⟩
  | FormationType.RED_TREE => do
    let pt ← getTreePoint tree.height tree.radius tree.spirals
      tree.spiralTightness (-2.0) tree.densityBias
    let r ← mathRandom
    let color :=
      if r > 0.96 then xext.parseColor colors.gold
      else if r > 0.8 then (⟨139/255, 0, 0⟩ : Color3 ℝ)
      else if r < 0.2 then (⟨1, 69/255, 0⟩ : Color3 ℝ)
      else cCrimson
    pure ⟨pt, color⟩
  | FormationType.GIFT => do
    let d ← getGiftPoint
    pure ⟨d.pos, postProcessGiftColor d.pos d.color⟩
  | FormationType.TEXT =>
    getDynamicTextPoint cext xext colors cache FormationType.TEXT i count
  | FormationType.ANKERMAKER =>
    getDynamicTextPoint cext xext colors cache FormationType.ANKERMAKER i
      count
  | FormationType.ANKER =>
    getDynamicTextPoint cext xext colors cache FormationType.ANKER i count
  | FormationType.SOUNDCORE =>
    getDynamicTextPoint cext xext colors cache FormationType.SOUNDCORE i
      count
  | FormationType.EUFY =>
    getDynamicTextPoint cext xext colors cache FormationType.EUFY i count
  | FormationType.ELK => do
    let d ← getElkPoint
    pure ⟨d.pos, d.color⟩
  | FormationType.TREE => do
    let pt ← getTreePoint tree.height tree.radius tree.spirals
      tree.spiralTightness (-2.0) tree.densityBias
    let r1 ← mathRandom
    if r1 > 0.95 then
      pure ⟨pt, xext.parseColor colors.gold⟩
    else do
      let r2 ← mathRandom
      if r2 < 0.5 then pure ⟨pt, (⟨0, 26/255, 20/255⟩ : Color3 ℝ)⟩
      else pure ⟨pt, xext.parseColor colors.emerald⟩

/-- A point moved by `a + (t - a) * s` with `s` in `[0,1]` stays on the
segment between `a` and `t`. -/
theorem lerp_mem_segment {R : Type} [LinearOrderedField R] (a t s : R)
    (h0 : 0 ≤ s) (h1 : s ≤ 1) :
    min a t ≤ a + (t - a) * s ∧ a + (t - a) * s ≤ max a t := by
  rcases le_total a t with hc | hc
  · rw [min_eq_left hc, max_eq_right hc]
    constructor
    · nlinarith
    · nlinarith
  · rw [min_eq_right hc, max_eq_left hc]
    constructor
    · nlinarith
    · nlinarith

/-- C1: for every in-range flat index `j` of the `Foliage` frame loop, the
new coordinate equals the old one plus `(target - old) * lerpSpeed`; the
factor is `speeds[i] * delta * 60 * particleSpeed`, times 3 exactly in the
firework case; the target is the formation target when the state is
`FORMED`, the firework position when the state is not `FORMED` and the
formation is `GIFT`, and the chaos position otherwise; and whenever the
factor lies in `[0,1]` the new coordinate lies on the segment between the
old coordinate and the target. -/
theorem foliageStep_spec {R : Type} [LinearOrderedField R]
    (state : AppState) (formation : FormationType) (count : ℕ)
    (targetPos fireworkPos chaosPos speeds pos : ℕ → R)
    (delta particleSpeed : R) (j : ℕ) (hj : j < count * 3) :
    foliageStep state formation count targetPos fireworkPos chaosPos speeds
        pos delta particleSpeed j
      = pos j +
          (foliageTargetArray state formation targetPos fireworkPos chaosPos j
              - pos j) *
            foliageLerpSpeed speeds delta particleSpeed
              (foliageIsFirework state formation) (j / 3) ∧
    foliageLerpSpeed speeds delta particleSpeed
        (foliageIsFirework state formation) (j / 3)
      = speeds (j / 3) * (delta * 60 * particleSpeed) *
          (if state ≠ AppState.FORMED ∧ formation = FormationType.GIFT
            then 3 else 1) ∧
    (state = AppState.FORMED →
      foliageTargetArray state formation targetPos fireworkPos chaosPos j
        = targetPos j) ∧
    (state ≠ AppState.FORMED → formation = FormationType.GIFT →
      foliageTargetArray state formation targetPos fireworkPos chaosPos j
        = fireworkPos j) ∧
    (state ≠ AppState.FORMED → formation ≠ FormationType.GIFT →
      foliageTargetArray state formation targetPos fireworkPos chaosPos j
        = chaosPos j) ∧
    (0 ≤ foliageLerpSpeed speeds delta particleSpeed
        (foliageIsFirework state formation) (j / 3) →
      foliageLerpSpeed speeds delta particleSpeed
        (foliageIsFirework state formation) (j / 3) ≤ 1 →
      min (pos j)
          (foliageTargetArray state formation targetPos fireworkPos chaosPos j)
        ≤ foliageStep state formation count targetPos fireworkPos chaosPos
            speeds pos delta particleSpeed j ∧
      foliageStep state formation count targetPos fireworkPos chaosPos speeds
          pos delta particleSpeed j
        ≤ max (pos j)
            (foliageTargetArray state formation targetPos fireworkPos
              chaosPos j)) := by
  have hstep : foliageStep state formation count targetPos fireworkPos
      chaosPos speeds pos delta particleSpeed j
      = pos j +
          (foliageTargetArray state formation targetPos fireworkPos chaosPos j
              - pos j) *
            foliageLerpSpeed speeds delta particleSpeed
              (foliageIsFirework state formation) (j / 3) := by
    unfold foliageStep
    rw [if_pos hj]
  refine ⟨hstep, ?_, ?_, ?_, ?_, ?_⟩
  · unfold foliageLerpSpeed foliageIsFirework
    by_cases h1 : state = AppState.FORMED <;>
      by_cases h2 : formation = FormationType.GIFT <;>
      simp [h1, h2]
  · intro h
    simp [foliageTargetArray, h]
  · intro h1 h2
    simp [foliageTargetArray, h1, h2]
  · intro h1 h2
    simp [foliageTargetArray, h1, h2]
  · intro h0 h1
    rw [hstep]
    exact lerp_mem_segment _ _ _ h0 h1

/-- Witness for C1 at a concrete input over `ℚ`: one particle in chaos
state with formation `TREE`, `speeds = 1/100`, `delta = 1/60`,
`particleSpeed = 1`, index `0 < 1 * 3`. -/
theorem foliageStep_spec_witness :
    foliageStep AppState.CHAOS FormationType.TREE 1 (fun _ => (5 : ℚ))
        (fun _ => 7) (fun _ => 2) (fun _ => 1/100) (fun _ => 0) (1/60) 1 0
      = (fun _ => (0 : ℚ)) 0 +
          (foliageTargetArray AppState.CHAOS FormationType.TREE
              (fun _ => (5 : ℚ)) (fun _ => 7) (fun _ => 2) 0
              - (fun _ => (0 : ℚ)) 0) *
            foliageLerpSpeed (fun _ => (1/100 : ℚ)) (1/60) 1
              (foliageIsFirework AppState.CHAOS FormationType.TREE) (0 / 3) ∧
    foliageLerpSpeed (fun _ => (1/100 : ℚ)) (1/60) 1
        (foliageIsFirework AppState.CHAOS FormationType.TREE) (0 / 3)
      = (fun _ => (1/100 : ℚ)) (0 / 3) * ((1/60) * 60 * 1) *
          (if AppState.CHAOS ≠ AppState.FORMED ∧
              FormationType.TREE = FormationType.GIFT
            then 3 else 1) ∧
    (AppState.CHAOS = AppState.FORMED →
      foliageTargetArray AppState.CHAOS FormationType.TREE
          (fun _ => (5 : ℚ)) (fun _ => 7) (fun _ => 2) 0
        = (fun _ => (5 : ℚ)) 0) ∧
    (AppState.CHAOS ≠ AppState.FORMED →
      FormationType.TREE = FormationType.GIFT →
      foliageTargetArray AppState.CHAOS FormationType.TREE
          (fun _ => (5 : ℚ)) (fun _ => 7) (fun _ => 2) 0
        = (fun _ => (7 : ℚ)) 0) ∧
    (AppState.CHAOS ≠ AppState.FORMED →
      FormationType.TREE ≠ FormationType.GIFT →
      foliageTargetArray AppState.CHAOS FormationType.TREE
          (fun _ => (5 : ℚ)) (fun _ => 7) (fun _ => 2) 0
        = (fun _ => (2 : ℚ)) 0) ∧
    (0 ≤ foliageLerpSpeed (fun _ => (1/100 : ℚ)) (1/60) 1
        (foliageIsFirework AppState.CHAOS FormationType.TREE) (0 / 3) →
      foliageLerpSpeed (fun _ => (1/100 : ℚ)) (1/60) 1
        (foliageIsFirework AppState.CHAOS FormationType.TREE) (0 / 3) ≤ 1 →
      min ((fun _ => (0 : ℚ)) 0)
          (foliageTargetArray AppState.CHAOS FormationType.TREE
            (fun _ => (5 : ℚ)) (fun _ => 7) (fun _ => 2) 0)
        ≤ foliageStep AppState.CHAOS FormationType.TREE 1 (fun _ => (5 : ℚ))
            (fun _ => 7) (fun _ => 2) (fun _ => 1/100) (fun _ => 0) (1/60)
            1 0 ∧
      foliageStep AppState.CHAOS FormationType.TREE 1 (fun _ => (5 : ℚ))
          (fun _ => 7) (fun _ => 2) (fun _ => 1/100) (fun _ => 0) (1/60) 1 0
        ≤ max ((fun _ => (0 : ℚ)) 0)
            (foliageTargetArray AppState.CHAOS FormationType.TREE
              (fun _ => (5 : ℚ)) (fun _ => 7) (fun _ => 2) 0)) :=
  foliageStep_spec AppState.CHAOS FormationType.TREE 1 (fun _ => (5 : ℚ))
    (fun _ => 7) (fun _ => 2) (fun _ => 1/100) (fun _ => 0) (1/60) 1 0
    (by decide)

/-- C9 (amended to nonnegative thickness): `getVolumetricShapePoint` never
reads out of bounds — on an empty list it returns the origin, and
otherwise the accessed index `index % points.length` is valid; with the
three draws in `[0,1)` and `thickness ≥ 0`, the result's `x` and `y`
differ from the looked-up point's by at most `0.05` each and its `z` lies
in `[-thickness/2, thickness/2]`. -/
theorem getVolumetricShapePoint_spec {R : Type} [LinearOrderedField R]
    (points : List (Vec3 R)) (index : ℕ) (rz rx ry thickness : R)
    (hrz0 : 0 ≤ rz) (hrz1 : rz < 1) (hrx0 : 0 ≤ rx) (hrx1 : rx < 1)
    (hry0 : 0 ≤ ry) (hry1 : ry < 1) (hth : 0 ≤ thickness) :
    (points = [] →
      getVolumetricShapePoint points index rz rx ry thickness = ⟨0, 0, 0⟩) ∧
    ∀ p ps, points = p :: ps →
      index % points.length < points.length ∧
      ∀ hlt : index % points.length < points.length,
        |(getVolumetricShapePoint points index rz rx ry thickness).x -
            (points.get ⟨index % points.length, hlt⟩).x| ≤ 1/20 ∧
        |(getVolumetricShapePoint points index rz rx ry thickness).y -
            (points.get ⟨index % points.length, hlt⟩).y| ≤ 1/20 ∧
        -(thickness / 2) ≤
            (getVolumetricShapePoint points index rz rx ry thickness).z ∧
        (getVolumetricShapePoint points index rz rx ry thickness).z ≤
          thickness / 2 := by
  constructor
  · intro h
    subst h
    rfl
  · intro p ps h
    subst h
    refine ⟨Nat.mod_lt _ (Nat.succ_pos _), ?_⟩
    intro hlt
    have hx : (getVolumetricShapePoint (p :: ps) index rz rx ry thickness).x
        = ((p :: ps).get ⟨index % (p :: ps).length, hlt⟩).x +
            (rx - 0.5) * 0.1 := rfl
    have hy : (getVolumetricShapePoint (p :: ps) index rz rx ry thickness).y
        = ((p :: ps).get ⟨index % (p :: ps).length, hlt⟩).y +
            (ry - 0.5) * 0.1 := rfl
    have hz : (getVolumetricShapePoint (p :: ps) index rz rx ry thickness).z
        = (rz - 0.5) * thickness := rfl
    refine ⟨?_, ?_, ?_, ?_⟩
    · rw [hx, abs_le]
      constructor <;> nlinarith
    · rw [hy, abs_le]
      constructor <;> nlinarith
    · rw [hz]
      nlinarith [mul_nonneg hth hrz0]
    · rw [hz]
      nlinarith [mul_nonneg hth (by linarith : (0 : R) ≤ 1 - rz)]

/-- Witness for C9 at a concrete input over `ℚ`: a one-point list with
draws `1/4, 1/2, 3/4` and thickness `3/2`. -/
theorem getVolumetricShapePoint_spec_witness :
    ((([⟨1, 2, 3⟩] : List (Vec3 ℚ)) = [] →
      getVolumetricShapePoint ([⟨1, 2, 3⟩] : List (Vec3 ℚ)) 5 (1/4) (1/2)
          (3/4) (3/2) = ⟨0, 0, 0⟩) ∧
    ∀ p ps, ([⟨1, 2, 3⟩] : List (Vec3 ℚ)) = p :: ps →
      5 % ([⟨1, 2, 3⟩] : List (Vec3 ℚ)).length <
          ([⟨1, 2, 3⟩] : List (Vec3 ℚ)).length ∧
      ∀ hlt : 5 % ([⟨1, 2, 3⟩] : List (Vec3 ℚ)).length <
          ([⟨1, 2, 3⟩] : List (Vec3 ℚ)).length,
        |(getVolumetricShapePoint ([⟨1, 2, 3⟩] : List (Vec3 ℚ)) 5 (1/4)
              (1/2) (3/4) (3/2)).x -
            (([⟨1, 2, 3⟩] : List (Vec3 ℚ)).get
              ⟨5 % ([⟨1, 2, 3⟩] : List (Vec3 ℚ)).length, hlt⟩).x| ≤ 1/20 ∧
        |(getVolumetricShapePoint ([⟨1, 2, 3⟩] : List (Vec3 ℚ)) 5 (1/4)
              (1/2) (3/4) (3/2)).y -
            (([⟨1, 2, 3⟩] : List (Vec3 ℚ)).get
              ⟨5 % ([⟨1, 2, 3⟩] : List (Vec3 ℚ)).length, hlt⟩).y| ≤ 1/20 ∧
        -((3 : ℚ)/2 / 2) ≤
            (getVolumetricShapePoint ([⟨1, 2, 3⟩] : List (Vec3 ℚ)) 5 (1/4)
              (1/2) (3/4) (3/2)).z ∧
        (getVolumetricShapePoint ([⟨1, 2, 3⟩] : List (Vec3 ℚ)) 5 (1/4) (1/2)
            (3/4) (3/2)).z ≤ (3 : ℚ)/2 / 2) :=
  getVolumetricShapePoint_spec ([⟨1, 2, 3⟩] : List (Vec3 ℚ)) 5 (1/4) (1/2)
    (3/4) (3/2) (by norm_num) (by norm_num) (by norm_num) (by norm_num)
    (by norm_num) (by norm_num) (by norm_num)

/-- Counterexample to C9 as stated: with a negative thickness `-1` (and
draws in `[0,1)`) the returned `z` does not lie in
`[-thickness/2, thickness/2]`. -/
theorem getVolumetricShapePoint_negThickness_cex :
    ¬ (-((-1 : ℚ) / 2) ≤
        (getVolumetricShapePoint ([⟨0, 0, 0⟩] : List (Vec3 ℚ)) 0 (9/10)
          (1/2) (1/2) (-1)).z ∧
      (getVolumetricShapePoint ([⟨0, 0, 0⟩] : List (Vec3 ℚ)) 0 (9/10) (1/2)
          (1/2) (-1)).z ≤ (-1 : ℚ) / 2) := by
  have hz : (getVolumetricShapePoint ([⟨0, 0, 0⟩] : List (Vec3 ℚ)) 0 (9/10)
      (1/2) (1/2) (-1)).z = -(2/5) := by
    norm_num [getVolumetricShapePoint]
  rw [hz]
  norm_num

/-- C5: a vector is in `getCanvasTextPoints` exactly when it arises from a
sampled pixel `(x, y)` (both coordinates multiples of the stride, inside
the canvas) whose alpha byte exceeds 128, in which case it equals
`((x - centerX) * 0.04, -(y - centerY) * 0.04, 0)`; consequently every
returned point has `z = 0`. -/
theorem getCanvasTextPoints_spec {R : Type} [LinearOrderedField R]
    [FloorRing R] (ext : CanvasExt R) (text font : String) (density : R)
    (v : Vec3 R) :
    (v ∈ getCanvasTextPoints ext text font density ↔
      ∃ x y : ℕ,
        y < ext.height text font ∧ y % sampleStep density = 0 ∧
        x < ext.width text font ∧ x % sampleStep density = 0 ∧
        128 < ext.alphaData text font
          ((y * ext.width text font + x) * 4 + 3) ∧
        v = ⟨((x : R) - (ext.width text font : R) / 2) * 0.04,
          -(((y : R) - (ext.height text font : R) / 2) * 0.04), 0⟩) ∧
    (v ∈ getCanvasTextPoints ext text font density → v.z = 0) := by
  have hiff : v ∈ getCanvasTextPoints ext text font density ↔
      ∃ x y : ℕ,
        y < ext.height text font ∧ y % sampleStep density = 0 ∧
        x < ext.width text font ∧ x % sampleStep density = 0 ∧
        128 < ext.alphaData text font
          ((y * ext.width text font + x) * 4 + 3) ∧
        v = ⟨((x : R) - (ext.width text font : R) / 2) * 0.04,
          -(((y : R) - (ext.height text font : R) / 2) * 0.04), 0⟩ := by
    unfold getCanvasTextPoints textPointsLoop
    simp only [List.mem_flatMap, List.mem_filterMap, List.mem_filter,
      List.mem_range, beq_iff_eq, Option.ite_none_right_eq_some,
      Option.some.injEq]
    constructor
    · rintro ⟨y, ⟨hy, hys⟩, x, ⟨hx, hxs⟩, ha, rfl⟩
      exact ⟨x, y, hy, hys, hx, hxs, ha, rfl⟩
    · rintro ⟨x, y, hy, hys, hx, hxs, ha, rfl⟩
      exact ⟨y, ⟨hy, hys⟩, x, ⟨hx, hxs⟩, ha, rfl⟩
  refine ⟨hiff, ?_⟩
  intro hv
  obtain ⟨x, y, _, _, _, _, _, rfl⟩ := hiff.mp hv
  rfl

/-- Witness for C5 at a concrete input over `ℚ`: a 4×4 canvas whose alpha
bytes are all 255, density 2 (stride 2); the pixel `(0, 0)` produces the
point `(-0.08, 0.08, 0)`, which is in the returned list by the theorem's
backward direction. -/
theorem getCanvasTextPoints_spec_witness :
    (⟨(((0 : ℕ) : ℚ) - ((4 : ℕ) : ℚ) / 2) * 0.04,
        -(((((0 : ℕ) : ℚ)) - ((4 : ℕ) : ℚ) / 2) * 0.04), 0⟩ : Vec3 ℚ) ∈
      getCanvasTextPoints
        (⟨fun _ _ => 4, fun _ _ => 4, fun _ _ _ => 255⟩ : CanvasExt ℚ)
        ("MERRY") ("serif") 2 :=
  (getCanvasTextPoints_spec
      (⟨fun _ _ => 4, fun _ _ => 4, fun _ _ _ => 255⟩ : CanvasExt ℚ)
      ("MERRY") ("serif") 2 _).1.mpr
    ⟨0, 0, by norm_num, by norm_num [sampleStep], by norm_num,
      by norm_num [sampleStep], by norm_num, rfl⟩

/-- Running a bound computation: run the first part, then the continuation
on the advanced cursor. -/
theorem Rand.bind_apply {α β : Type} (m : Rand α) (f : α → Rand β)
    (s : ℕ → ℝ) (n : ℕ) : (m >>= f) s n = f (m s n).1 s (m s n).2 := rfl

/-- Running a pure computation leaves the cursor unchanged. -/
theorem Rand.pure_apply {α : Type} (a : α) (s : ℕ → ℝ) (n : ℕ) :
    (pure a : Rand α) s n = (a, n) := rfl

/-- Running one `Math.random()` call. -/
theorem mathRandom_apply (s : ℕ → ℝ) (n : ℕ) :
    mathRandom s n = (s n, n + 1) := rfl

/-- The cumulative weight of zero regions is zero. -/
theorem cumWeight_zero (regions : List Region) : cumWeight regions 0 = 0 :=
  rfl

/-- Cumulative weight unfolds along a cons. -/
theorem cumWeight_cons (r : Region) (rest : List Region) (k : ℕ) :
    cumWeight (r :: rest) (k + 1) = r.weight + cumWeight rest k := by
  simp [cumWeight]

/-- Cumulative weights of nonnegative weights are nonnegative. -/
theorem cumWeight_nonneg (regions : List Region)
    (hw : ∀ r ∈ regions, 0 ≤ r.weight) (k : ℕ) :
    0 ≤ cumWeight regions k := by
  apply List.sum_nonneg
  intro x hx
  obtain ⟨r, hr, rfl⟩ := List.mem_map.mp hx
  exact hw r (List.take_subset _ _ hr)

/-- The scan loop of `sampleRegions` returns exactly the region whose
cumulative-weight interval contains the random mass, and that region is
unique. -/
theorem selectRegion_spec (regions : List Region) (u : ℝ)
    (hw : ∀ r ∈ regions, 0 ≤ r.weight) (h0 : 0 ≤ u)
    (hu : u < totalWeight regions) :
    ∃ k, ∃ hk : k < regions.length,
      cumWeight regions k ≤ u ∧
      u < cumWeight regions k + (regions.get ⟨k, hk⟩).weight ∧
      selectRegion regions u = some (regions.get ⟨k, hk⟩) ∧
      ∀ j, ∀ hj : j < regions.length,
        cumWeight regions j ≤ u →
        u < cumWeight regions j + (regions.get ⟨j, hj⟩).weight → j = k := by
  induction regions generalizing u with
  | nil =>
    exfalso
    simp [totalWeight] at hu
    linarith
  | cons r rest ih =>
    by_cases hlt : u < r.weight
    · refine ⟨0, Nat.succ_pos _, ?_, ?_, ?_, ?_⟩
      · simpa [cumWeight] using h0
      · simpa [cumWeight] using hlt
      · simp [selectRegion, hlt]
      · intro j hj hjle hjlt
        cases j with
        | zero => rfl
        | succ j' =>
          exfalso
          rw [cumWeight_cons] at hjle
          have hcw : 0 ≤ cumWeight rest j' :=
            cumWeight_nonneg rest
              (fun x hx => hw x (List.mem_cons_of_mem _ hx)) j'
          linarith
    · push_neg at hlt
      have hw' : ∀ x ∈ rest, 0 ≤ x.weight :=
        fun x hx => hw x (List.mem_cons_of_mem _ hx)
      have h0' : 0 ≤ u - r.weight := by linarith
      have hu' : u - r.weight < totalWeight rest := by
        have htot : totalWeight (r :: rest) = r.weight + totalWeight rest := by
          simp [totalWeight]
        rw [htot] at hu
        linarith
      obtain ⟨k, hk, hc1, hc2, hsel, huniq⟩ := ih (u - r.weight) hw' h0' hu'
      refine ⟨k + 1, Nat.succ_lt_succ hk, ?_, ?_, ?_, ?_⟩
      · rw [cumWeight_cons]
        linarith
      · rw [cumWeight_cons]
        show u < r.weight + cumWeight rest k + (rest.get ⟨k, hk⟩).weight
        linarith
      · have hnot : ¬ u < r.weight := not_lt.mpr hlt
        simp only [selectRegion, if_neg hnot]
        exact hsel
      · intro j hj hjle hjlt
        cases j with
        | zero =>
          exfalso
          rw [cumWeight_zero] at hjle hjlt
          have : u < 0 + r.weight := hjlt
          linarith
        | succ j' =>
          have hj' : j' < rest.length := Nat.lt_of_succ_lt_succ hj
          have hjle' : cumWeight rest j' ≤ u - r.weight := by
            rw [cumWeight_cons] at hjle
            linarith
          have hjlt' : u - r.weight <
              cumWeight rest j' + (rest.get ⟨j', hj'⟩).weight := by
            rw [cumWeight_cons] at hjlt
            have : u < r.weight + cumWeight rest j' +
                (rest.get ⟨j', hj'⟩).weight := hjlt
            linarith
          have := huniq j' hj' hjle' hjlt'
          omega

/-- C2: when all weights are nonnegative, the total is positive and the
draw lies in `[0,1)` (so that `draw * totalWeight` lies in
`[0, totalWeight)`), `sampleRegions` returns the generator output and the
colour of the unique region whose cumulative-weight interval contains the
scaled draw; in particular the fall-through branch is not taken. -/
theorem sampleRegions_spec (regions : List Region) (s : ℕ → ℝ) (n : ℕ)
    (hw : ∀ r ∈ regions, 0 ≤ r.weight) (ht : 0 < totalWeight regions)
    (h0 : 0 ≤ s n) (h1 : s n < 1) :
    ∃ k, ∃ hk : k < regions.length,
      cumWeight regions k ≤ s n * totalWeight regions ∧
      s n * totalWeight regions <
        cumWeight regions k + (regions.get ⟨k, hk⟩).weight ∧
      (∀ j, ∀ hj : j < regions.length,
        cumWeight regions j ≤ s n * totalWeight regions →
        s n * totalWeight regions <
          cumWeight regions j + (regions.get ⟨j, hj⟩).weight → j = k) ∧
      sampleRegions regions s n =
        (⟨((regions.get ⟨k, hk⟩).gen s (n + 1)).1,
            (regions.get ⟨k, hk⟩).color⟩,
          ((regions.get ⟨k, hk⟩).gen s (n + 1)).2) := by
  have hu0 : 0 ≤ s n * totalWeight regions := mul_nonneg h0 ht.le
  have hu1 : s n * totalWeight regions < totalWeight regions := by
    nlinarith
  obtain ⟨k, hk, hc1, hc2, hsel, huniq⟩ :=
    selectRegion_spec regions (s n * totalWeight regions) hw hu0 hu1
  refine ⟨k, hk, hc1, hc2, huniq, ?_⟩
  have hrun : sampleRegions regions s n =
      (match selectRegion regions (s n * totalWeight regions) with
        | some r => (r.gen >>= fun p => pure (⟨p, r.color⟩ : ShapeData))
        | none => pure ⟨⟨0, 0, 0⟩, PALETTE.white⟩) s (n + 1) := rfl
  rw [hrun, hsel]
  rfl

/-- Witness for C2 at a concrete input: two regions of weights 2 and 3
with constant generators, draw `1/2`; the scaled draw `5/2` falls in the
second region's interval `[2, 5)`. -/
theorem sampleRegions_spec_witness :
    ∃ k, ∃ hk : k <
        ([⟨2, PALETTE.red, pure ⟨1, 2, 3⟩⟩,
          ⟨3, PALETTE.white, pure ⟨4, 5, 6⟩⟩] : List Region).length,
      cumWeight [⟨2, PALETTE.red, pure ⟨1, 2, 3⟩⟩,
          ⟨3, PALETTE.white, pure ⟨4, 5, 6⟩⟩] k ≤
        (fun _ => (1 : ℝ)/2) 0 *
          totalWeight [⟨2, PALETTE.red, pure ⟨1, 2, 3⟩⟩,
            ⟨3, PALETTE.white, pure ⟨4, 5, 6⟩⟩] ∧
      (fun _ => (1 : ℝ)/2) 0 *
          totalWeight [⟨2, PALETTE.red, pure ⟨1, 2, 3⟩⟩,
            ⟨3, PALETTE.white, pure ⟨4, 5, 6⟩⟩] <
        cumWeight [⟨2, PALETTE.red, pure ⟨1, 2, 3⟩⟩,
            ⟨3, PALETTE.white, pure ⟨4, 5, 6⟩⟩] k +
          (([⟨2, PALETTE.red, pure ⟨1, 2, 3⟩⟩,
            ⟨3, PALETTE.white, pure ⟨4, 5, 6⟩⟩] : List Region).get
              ⟨k, hk⟩).weight ∧
      (∀ j, ∀ hj : j <
          ([⟨2, PALETTE.red, pure ⟨1, 2, 3⟩⟩,
            ⟨3, PALETTE.white, pure ⟨4, 5, 6⟩⟩] : List Region).length,
        cumWeight [⟨2, PALETTE.red, pure ⟨1, 2, 3⟩⟩,
            ⟨3, PALETTE.white, pure ⟨4, 5, 6⟩⟩] j ≤
          (fun _ => (1 : ℝ)/2) 0 *
            totalWeight [⟨2, PALETTE.red, pure ⟨1, 2, 3⟩⟩,
              ⟨3, PALETTE.white, pure ⟨4, 5, 6⟩⟩] →
        (fun _ => (1 : ℝ)/2) 0 *
            totalWeight [⟨2, PALETTE.red, pure ⟨1, 2, 3⟩⟩,
              ⟨3, PALETTE.white, pure ⟨4, 5, 6⟩⟩] <
          cumWeight [⟨2, PALETTE.red, pure ⟨1, 2, 3⟩⟩,
              ⟨3, PALETTE.white, pure ⟨4, 5, 6⟩⟩] j +
            (([⟨2, PALETTE.red, pure ⟨1, 2, 3⟩⟩,
              ⟨3, PALETTE.white, pure ⟨4, 5, 6⟩⟩] : List Region).get
                ⟨j, hj⟩).weight → j = k) ∧
      sampleRegions [⟨2, PALETTE.red, pure ⟨1, 2, 3⟩⟩,
          ⟨3, PALETTE.white, pure ⟨4, 5, 6⟩⟩] (fun _ => (1 : ℝ)/2) 0 =
        (⟨((([⟨2, PALETTE.red, pure ⟨1, 2, 3⟩⟩,
            ⟨3, PALETTE.white, pure ⟨4, 5, 6⟩⟩] : List Region).get
              ⟨k, hk⟩).gen (fun _ => (1 : ℝ)/2) (0 + 1)).1,
            (([⟨2, PALETTE.red, pure ⟨1, 2, 3⟩⟩,
              ⟨3, PALETTE.white, pure ⟨4, 5, 6⟩⟩] : List Region).get
                ⟨k, hk⟩).color⟩,
          ((([⟨2, PALETTE.red, pure ⟨1, 2, 3⟩⟩,
            ⟨3, PALETTE.white, pure ⟨4, 5, 6⟩⟩] : List Region).get
              ⟨k, hk⟩).gen (fun _ => (1 : ℝ)/2) (0 + 1)).2) :=
  sampleRegions_spec
    [⟨2, PALETTE.red, pure ⟨1, 2, 3⟩⟩, ⟨3, PALETTE.white, pure ⟨4, 5, 6⟩⟩]
    (fun _ => (1 : ℝ)/2) 0
    (by
      intro r hr
      rcases List.mem_cons.mp hr with h | h
      · rw [h]
        norm_num
      · rw [List.mem_singleton.mp h]
        norm_num)
    (by norm_num [totalWeight]) (by norm_num) (by norm_num)

/-- Shared cone bound: the point produced by either branch of
`getTreePoint` (radius factor in `[0,1]`) satisfies the height and cone
inequalities. -/
theorem tree_cone_aux (height maxRadius yNorm rFactor A off : ℝ)
    (hh : 0 < height) (hr : 0 ≤ maxRadius) (hy0 : 0 ≤ yNorm)
    (hy1 : yNorm ≤ 1) (hf0 : 0 ≤ rFactor) (hf1 : rFactor ≤ 1) :
    0 ≤ yNorm * height + off - off ∧
    yNorm * height + off - off ≤ height ∧
    (maxRadius * (1 - yNorm * height / height) * rFactor * Real.cos A) ^ 2 +
        (maxRadius * (1 - yNorm * height / height) * rFactor *
          Real.sin A) ^ 2 ≤
      (maxRadius * (1 - (yNorm * height + off - off) / height)) ^ 2 := by
  have hsub : yNorm * height + off - off = yNorm * height := by ring
  have hdiv : yNorm * height / height = yNorm := by
    rw [mul_div_assoc, div_self hh.ne', mul_one]
  rw [hsub, hdiv]
  refine ⟨mul_nonneg hy0 hh.le, by nlinarith, ?_⟩
  have hB0 : 0 ≤ maxRadius * (1 - yNorm) := mul_nonneg hr (by linarith)
  have htrig := Real.sin_sq_add_cos_sq A
  have hxz : (maxRadius * (1 - yNorm) * rFactor * Real.cos A) ^ 2 +
      (maxRadius * (1 - yNorm) * rFactor * Real.sin A) ^ 2 =
      (maxRadius * (1 - yNorm) * rFactor) ^ 2 := by
    linear_combination (maxRadius * (1 - yNorm) * rFactor) ^ 2 * htrig
  rw [hxz]
  have hle : maxRadius * (1 - yNorm) * rFactor ≤ maxRadius * (1 - yNorm) :=
    mul_le_of_le_one_right hB0 hf1
  exact pow_le_pow_left₀ (mul_nonneg hB0 hf0) hle 2

/-- C8: with positive height, nonnegative base radius, positive density
bias, tightness in `[0,1]` and all draws in `[0,1)`, every point produced
by `getTreePoint` lies inside the cone: its height above the vertical
offset is in `[0, height]` and its horizontal distance squared is at most
the squared cone radius at that height — for every number of spirals. -/
theorem getTreePoint_inCone (height maxRadius spirals spiralTightness
    verticalOffset densityBias : ℝ) (s : ℕ → ℝ) (n : ℕ)
    (hh : 0 < height) (hr : 0 ≤ maxRadius) (hdb : 0 < densityBias)
    (hst0 : 0 ≤ spiralTightness) (hst1 : spiralTightness ≤ 1)
    (hs : ∀ k, 0 ≤ s k ∧ s k < 1) :
    0 ≤ ((getTreePoint height maxRadius spirals spiralTightness
        verticalOffset densityBias) s n).1.y - verticalOffset ∧
    ((getTreePoint height maxRadius spirals spiralTightness verticalOffset
        densityBias) s n).1.y - verticalOffset ≤ height ∧
    ((getTreePoint height maxRadius spirals spiralTightness verticalOffset
          densityBias) s n).1.x ^ 2 +
        ((getTreePoint height maxRadius spirals spiralTightness
          verticalOffset densityBias) s n).1.z ^ 2 ≤
      (maxRadius *
          (1 - (((getTreePoint height maxRadius spirals spiralTightness
              verticalOffset densityBias) s n).1.y - verticalOffset) /
            height)) ^ 2 := by
  have ha := hs n
  have hy0 : 0 ≤ s n ^ (1 / densityBias) := Real.rpow_nonneg ha.1 _
  have hy1 : s n ^ (1 / densityBias) ≤ 1 :=
    Real.rpow_le_one ha.1 ha.2.le (by positivity)
  unfold getTreePoint
  simp only [Rand.bind_apply, mathRandom_apply]
  split_ifs with hsp
  · simp only [Rand.bind_apply, mathRandom_apply, Rand.pure_apply]
    have hq := hs (n + 1 + 1)
    have hq0 : 0 ≤ Real.sqrt (s (n + 1 + 1)) := Real.sqrt_nonneg _
    have hq1 : Real.sqrt (s (n + 1 + 1)) ≤ 1 := Real.sqrt_le_one.mpr hq.2.le
    refine tree_cone_aux height maxRadius _ _ _ verticalOffset hh hr hy0 hy1
      ?_ ?_
    · nlinarith
    · nlinarith [mul_nonneg (by linarith : (0:ℝ) ≤ 1 - Real.sqrt (s (n+1+1)))
        (by linarith : (0:ℝ) ≤ 1 - spiralTightness * 0.5)]
  · simp only [Rand.bind_apply, mathRandom_apply, Rand.pure_apply]
    have hq := hs (n + 1 + 1)
    have hq0 : 0 ≤ Real.sqrt (s (n + 1 + 1)) := Real.sqrt_nonneg _
    have hq1 : Real.sqrt (s (n + 1 + 1)) ≤ 1 := Real.sqrt_le_one.mpr hq.2.le
    exact tree_cone_aux height maxRadius _ _ _ verticalOffset hh hr hy0 hy1
      hq0 hq1

/-- Witness for C8 at a concrete input: the source's default tree
(`height = 12`, `radius = 4.5`, `spirals = 3`, tightness `0`, offset
`-2`, bias `1`) on the constant stream `1/2`. -/
theorem getTreePoint_inCone_witness :
    0 ≤ ((getTreePoint 12 4.5 3 0 (-2) 1) (fun _ => (1 : ℝ)/2) 0).1.y -
        (-2) ∧
    ((getTreePoint 12 4.5 3 0 (-2) 1) (fun _ => (1 : ℝ)/2) 0).1.y - (-2) ≤
        12 ∧
    ((getTreePoint 12 4.5 3 0 (-2) 1) (fun _ => (1 : ℝ)/2) 0).1.x ^ 2 +
        ((getTreePoint 12 4.5 3 0 (-2) 1) (fun _ => (1 : ℝ)/2) 0).1.z ^ 2 ≤
      (4.5 *
          (1 - (((getTreePoint 12 4.5 3 0 (-2) 1)
              (fun _ => (1 : ℝ)/2) 0).1.y - (-2)) / 12)) ^ 2 :=
  getTreePoint_inCone 12 4.5 3 0 (-2) 1 (fun _ => (1 : ℝ)/2) 0
    (by norm_num) (by norm_num) (by norm_num) (by norm_num) (by norm_num)
    (by intro k; norm_num)

/-- C10: with nonnegative radius and all draws in `[0,1)`, the point
produced by `getRandomSpherePoint` has Euclidean norm at most the radius,
and its norm equals `cbrt u * radius` for the third draw `u ∈ [0,1)`. -/
theorem getRandomSpherePoint_norm (radius : ℝ) (s : ℕ → ℝ) (n : ℕ)
    (hr : 0 ≤ radius) (hs : ∀ k, 0 ≤ s k ∧ s k < 1) :
    Real.sqrt (((getRandomSpherePoint radius) s n).1.x ^ 2 +
        ((getRandomSpherePoint radius) s n).1.y ^ 2 +
        ((getRandomSpherePoint radius) s n).1.z ^ 2) ≤ radius ∧
    ∃ u, 0 ≤ u ∧ u < 1 ∧
      Real.sqrt (((getRandomSpherePoint radius) s n).1.x ^ 2 +
          ((getRandomSpherePoint radius) s n).1.y ^ 2 +
          ((getRandomSpherePoint radius) s n).1.z ^ 2) = cbrt u * radius := by
  have hw := hs (n + 1 + 1)
  have hcb0 : 0 ≤ cbrt (s (n + 1 + 1)) := by
    unfold cbrt
    rw [if_neg (not_lt.mpr hw.1)]
    exact Real.rpow_nonneg hw.1 _
  have hcb1 : cbrt (s (n + 1 + 1)) ≤ 1 := by
    unfold cbrt
    rw [if_neg (not_lt.mpr hw.1)]
    exact Real.rpow_le_one hw.1 hw.2.le (by norm_num)
  have hr0 : 0 ≤ cbrt (s (n + 1 + 1)) * radius := mul_nonneg hcb0 hr
  have h1 := Real.sin_sq_add_cos_sq (2 * Real.pi * s n)
  have h2 := Real.sin_sq_add_cos_sq (Real.arccos (2 * s (n + 1) - 1))
  have hsum : ((getRandomSpherePoint radius) s n).1.x ^ 2 +
      ((getRandomSpherePoint radius) s n).1.y ^ 2 +
      ((getRandomSpherePoint radius) s n).1.z ^ 2 =
      (cbrt (s (n + 1 + 1)) * radius) ^ 2 := by
    show (cbrt (s (n + 1 + 1)) * radius *
          Real.sin (Real.arccos (2 * s (n + 1) - 1)) *
          Real.cos (2 * Real.pi * s n)) ^ 2 +
        (cbrt (s (n + 1 + 1)) * radius *
          Real.sin (Real.arccos (2 * s (n + 1) - 1)) *
          Real.sin (2 * Real.pi * s n)) ^ 2 +
        (cbrt (s (n + 1 + 1)) * radius *
          Real.cos (Real.arccos (2 * s (n + 1) - 1))) ^ 2 =
        (cbrt (s (n + 1 + 1)) * radius) ^ 2
    linear_combination (cbrt (s (n + 1 + 1)) * radius *
        Real.sin (Real.arccos (2 * s (n + 1) - 1))) ^ 2 * h1 +
      (cbrt (s (n + 1 + 1)) * radius) ^ 2 * h2
  rw [hsum, Real.sqrt_sq hr0]
  exact ⟨mul_le_of_le_one_left hr hcb1, s (n + 1 + 1), hw.1, hw.2, rfl⟩

/-- Witness for C10 at a concrete input: radius `2` on the constant
stream `1/2`. -/
theorem getRandomSpherePoint_norm_witness :
    Real.sqrt (((getRandomSpherePoint 2) (fun _ => (1 : ℝ)/2) 0).1.x ^ 2 +
        ((getRandomSpherePoint 2) (fun _ => (1 : ℝ)/2) 0).1.y ^ 2 +
        ((getRandomSpherePoint 2) (fun _ => (1 : ℝ)/2) 0).1.z ^ 2) ≤ 2 ∧
    ∃ u, 0 ≤ u ∧ u < 1 ∧
      Real.sqrt (((getRandomSpherePoint 2) (fun _ => (1 : ℝ)/2) 0).1.x ^ 2 +
          ((getRandomSpherePoint 2) (fun _ => (1 : ℝ)/2) 0).1.y ^ 2 +
          ((getRandomSpherePoint 2) (fun _ => (1 : ℝ)/2) 0).1.z ^ 2) =
        cbrt u * 2 :=
  getRandomSpherePoint_norm 2 (fun _ => (1 : ℝ)/2) 0 (by norm_num)
    (by intro k; norm_num)

/-- C7: the `Foliage` target switch routes every formation to its
generator — `getHatPoint` for HAT; `getStockingPoint` with position
scaled by 1.1 and colour `postProcessStockingColor` of the scaled
position for STOCKING; `getSantaPoint` with position scaled by 1.1 for
SANTA; `getGiftPoint` for GIFT (its post-processing is the identity);
`getElkPoint` for ELK; the dynamic text/logo generator for the five text
formations; and `getTreePoint` with the configured tree parameters for
the tree formations and the default (TREE) case. -/
theorem foliageTargetPoint_dispatch (cext : CanvasExt ℝ) (xext : ColorExt)
    (tree : TreeConfig) (colors : ColorsConfig)
    (cache : FormationType → Option (List (Vec3 ℝ))) (i count : ℕ)
    (s : ℕ → ℝ) (n : ℕ) :
    foliageTargetPoint cext xext FormationType.HAT tree colors cache i count
        s n = getHatPoint s n ∧
    foliageTargetPoint cext xext FormationType.STOCKING tree colors cache i
        count s n =
      (⟨((getStockingPoint s n).1.pos.multiplyScalar 1.1),
          postProcessStockingColor
            ((getStockingPoint s n).1.pos.multiplyScalar 1.1)
            (getStockingPoint s n).1.color⟩,
        (getStockingPoint s n).2) ∧
    foliageTargetPoint cext xext FormationType.SANTA tree colors cache i
        count s n =
      (⟨(getSantaPoint s n).1.pos.multiplyScalar 1.1,
          (getSantaPoint s n).1.color⟩,
        (getSantaPoint s n).2) ∧
    foliageTargetPoint cext xext FormationType.GIFT tree colors cache i
        count s n = getGiftPoint s n ∧
    foliageTargetPoint cext xext FormationType.ELK tree colors cache i count
        s n = getElkPoint s n ∧
    foliageTargetPoint cext xext FormationType.TEXT tree colors cache i
        count s n =
      getDynamicTextPoint cext xext colors cache FormationType.TEXT i count
        s n ∧
    foliageTargetPoint cext xext FormationType.ANKERMAKER tree colors cache
        i count s n =
      getDynamicTextPoint cext xext colors cache FormationType.ANKERMAKER i
        count s n ∧
    foliageTargetPoint cext xext FormationType.ANKER tree colors cache i
        count s n =
      getDynamicTextPoint cext xext colors cache FormationType.ANKER i count
        s n ∧
    foliageTargetPoint cext xext FormationType.SOUNDCORE tree colors cache i
        count s n =
      getDynamicTextPoint cext xext colors cache FormationType.SOUNDCORE i
        count s n ∧
    foliageTargetPoint cext xext FormationType.EUFY tree colors cache i
        count s n =
      getDynamicTextPoint cext xext colors cache FormationType.EUFY i count
        s n ∧
    (foliageTargetPoint cext xext FormationType.PINK_TREE tree colors cache
        i count s n).1.pos =
      ((getTreePoint tree.height tree.radius tree.spirals
        tree.spiralTightness (-2.0) tree.densityBias) s n).1 ∧
    (foliageTargetPoint cext xext FormationType.RED_TREE tree colors cache i
        count s n).1.pos =
      ((getTreePoint tree.height tree.radius tree.spirals
        tree.spiralTightness (-2.0) tree.densityBias) s n).1 ∧
    (foliageTargetPoint cext xext FormationType.TREE tree colors cache i
        count s n).1.pos =
      ((getTreePoint tree.height tree.radius tree.spirals
        tree.spiralTightness (-2.0) tree.densityBias) s n).1 := by
  refine ⟨rfl, rfl, rfl, rfl, rfl, rfl, rfl, rfl, rfl, rfl, rfl, rfl, ?_⟩
  show ((getTreePoint tree.height tree.radius tree.spirals
      tree.spiralTightness (-2.0) tree.densityBias >>= fun pt =>
      mathRandom >>= fun r1 =>
      if r1 > 0.95 then
        pure (⟨pt, xext.parseColor colors.gold⟩ : ShapeData)
      else
        mathRandom >>= fun r2 =>
          if r2 < 0.5 then
            pure (⟨pt, (⟨0, 26/255, 20/255⟩ : Color3 ℝ)⟩ : ShapeData)
          else pure ⟨pt, xext.parseColor colors.emerald⟩) s n).1.pos = _
  simp only [Rand.bind_apply, mathRandom_apply]
  split_ifs
  · rfl
  · simp only [Rand.bind_apply, mathRandom_apply]
    split_ifs <;> rfl

end Christmas
